import Mathlib

/-!
Verification development for the KGP_EQ audio-processor core
(`src/KGP_EQ/Source/PluginProcessor.h` / `PluginProcessor.cpp`).

The C++ code is shallowly embedded: samples and coefficient entries are
modelled as exact rationals, machine state as explicit Lean structures,
and the fallible channel access in `processBlock` as an `Option` result.
External JUCE facilities (coefficient design, the `AbstractFifo`
bookkeeping, the per-stage IIR difference equation) are not part of the
repository; where they are needed they are modelled from the spec, and
each such definition says so in its doc comment.
-/

set_option autoImplicit false

/-! ## Fifo (PluginProcessor.h lines 21-69)

`Fifo<T>` wraps a 30-slot buffer array and a `juce::AbstractFifo` that
hands out read/write positions.  The `AbstractFifo` bookkeeping itself is
external library code; here it is modelled from the spec: a
single-producer single-consumer bounded ring buffer of fixed capacity,
where a write of one slot succeeds exactly while fewer than `Capacity`
elements are queued and a read of one slot succeeds exactly while the
queue is non-empty.  `readPos` is the index of the oldest queued element
and `numReady` the number of queued elements. -/

structure Fifo (T : Type) where
  buffers : List T
  readPos : Nat
  numReady : Nat
deriving DecidableEq

/-- `static constexpr int Capacity = 30;` (PluginProcessor.h line 66). -/
def Fifo.Capacity : Nat := 30

/-- `Fifo::push` (PluginProcessor.h lines 41-49): asks the abstract fifo
for one write slot; if a slot is granted the element is stored there and
`true` is returned, otherwise nothing changes and `false` is returned.
Returns the new fifo state together with the `bool` result. -/
def Fifo.push {T : Type} (f : Fifo T) (t : T) : Fifo T × Bool :=
  if f.numReady < Fifo.Capacity then
    ({ f with
        buffers := f.buffers.set ((f.readPos + f.numReady) % Fifo.Capacity) t,
        numReady := f.numReady + 1 }, true)
  else
    (f, false)

/-- `Fifo::pull` (PluginProcessor.h lines 51-59): asks the abstract fifo
for one read slot; if one is granted the element there is copied into the
out-parameter `t` and `true` is returned, otherwise `t` is left as it was
and `false` is returned.  Returns (new fifo state, value of the
out-parameter after the call, `bool` result). -/
def Fifo.pull {T : Type} (f : Fifo T) (t : T) : Fifo T × T × Bool :=
  if 0 < f.numReady then
    ({ f with
        readPos := (f.readPos + 1) % Fifo.Capacity,
        numReady := f.numReady - 1 },
     f.buffers.getD f.readPos t, true)
  else
    (f, t, false)

/-- `Fifo::getNumAvailableForReading` (PluginProcessor.h lines 61-63). -/
def Fifo.getNumAvailableForReading {T : Type} (f : Fifo T) : Nat :=
  f.numReady

/-- The queued elements in FIFO order (oldest first); `dflt` is returned
for an out-of-range buffer index and never occurs on well-formed states. -/
def Fifo.contents {T : Type} (f : Fifo T) (dflt : T) : List T :=
  (List.range f.numReady).map fun i => f.buffers.getD ((f.readPos + i) % Fifo.Capacity) dflt

/-- `Fifo::prepare(int numChannels, int numSamples)` for the
`AudioBuffer` instantiation, specialised to one channel as the code
always uses it (PluginProcessor.h lines 23-30): every slot buffer is
resized to `numSamples` samples and cleared to zero.  The abstract
fifo's read/write positions are not touched. -/
def Fifo.prepare (f : Fifo (List ℚ)) (numSamples : Nat) : Fifo (List ℚ) :=
  { f with buffers := List.replicate Fifo.Capacity (List.replicate numSamples 0) }

/-! ## SingleChannelSampleFifo (PluginProcessor.h lines 71-134) -/

/-- `enum Channel { Right, Left };` (PluginProcessor.h lines 71-74).
Note the source order: `Right` has value 0 and `Left` has value 1. -/
inductive Channel where
  | Right
  | Left
deriving DecidableEq

/-- The integral value of a `Channel` enumerator. -/
def Channel.toNat : Channel → Nat
  | .Right => 0
  | .Left => 1

/-- A multichannel audio buffer: one list of samples per channel. -/
abbrev Buffer : Type := List (List ℚ)

/-- `SingleChannelSampleFifo<BlockType>` state (PluginProcessor.h lines
76-134), with `BlockType` the single mono block `List ℚ`. -/
structure SingleChannelSampleFifo where
  channelToUse : Channel
  fifoIndex : Nat
  audioBufferFifo : Fifo (List ℚ)
  bufferToFill : List ℚ
  prepared : Bool
  size : Nat
deriving DecidableEq

/-- The constructor `SingleChannelSampleFifo(Channel ch)`
(PluginProcessor.h lines 78-80) together with the default member
initialisers: `prepared` is set to `false`, `fifoIndex` starts at 0 and
the block fifo starts empty. -/
def SingleChannelSampleFifo.new (ch : Channel) : SingleChannelSampleFifo :=
  { channelToUse := ch
    fifoIndex := 0
    audioBufferFifo := { buffers := List.replicate Fifo.Capacity [], readPos := 0, numReady := 0 }
    bufferToFill := []
    prepared := false
    size := 0 }

/-- `SingleChannelSampleFifo::pushNextSampleIntoFifo` (PluginProcessor.h
lines 122-132): when the staging buffer is full, push it into the block
fifo (ignoring the success flag) and restart at index 0; then write the
incoming sample at the current index and advance. -/
def SingleChannelSampleFifo.pushNextSampleIntoFifo
    (s : SingleChannelSampleFifo) (sample : ℚ) : SingleChannelSampleFifo :=
  let s1 :=
    if s.fifoIndex = s.bufferToFill.length then
      { s with audioBufferFifo := (s.audioBufferFifo.push s.bufferToFill).1, fifoIndex := 0 }
    else
      s
  { s1 with bufferToFill := s1.bufferToFill.set s1.fifoIndex sample, fifoIndex := s1.fifoIndex + 1 }

/-- `SingleChannelSampleFifo::prepare(int bufferSize)` (PluginProcessor.h
lines 93-102). -/
def SingleChannelSampleFifo.prepare
    (s : SingleChannelSampleFifo) (bufferSize : Nat) : SingleChannelSampleFifo :=
  { s with
      prepared := true
      size := bufferSize
      bufferToFill := List.replicate bufferSize 0
      audioBufferFifo := s.audioBufferFifo.prepare bufferSize
      fifoIndex := 0 }

/-- `SingleChannelSampleFifo::update(const BlockType& buffer)`
(PluginProcessor.h lines 82-91): reads the channel `channelToUse` of the
multichannel buffer and feeds each of its samples into
`pushNextSampleIntoFifo`.  The `jassert`s are debug-only no-ops. -/
def SingleChannelSampleFifo.update
    (s : SingleChannelSampleFifo) (buffer : Buffer) : SingleChannelSampleFifo :=
  let channelPtr := buffer.getD s.channelToUse.toNat []
  channelPtr.foldl SingleChannelSampleFifo.pushNextSampleIntoFifo s

/-- `SingleChannelSampleFifo::getNumCompleteBuffersAvailable`
(PluginProcessor.h line 106). -/
def SingleChannelSampleFifo.getNumCompleteBuffersAvailable
    (s : SingleChannelSampleFifo) : Nat :=
  s.audioBufferFifo.getNumAvailableForReading

/-- `SingleChannelSampleFifo::getAudioBuffer` (PluginProcessor.h line
112): pulls one complete block into the out-parameter. -/
def SingleChannelSampleFifo.getAudioBuffer
    (s : SingleChannelSampleFifo) (buf : List ℚ) :
    SingleChannelSampleFifo × List ℚ × Bool :=
  let r := s.audioBufferFifo.pull buf
  ({ s with audioBufferFifo := r.1 }, r.2.1, r.2.2)

/-- Feeding a list of samples one at a time, in order, into a
`SingleChannelSampleFifo` (the loop body of `update`). -/
def feedSamples (s : SingleChannelSampleFifo) (xs : List ℚ) : SingleChannelSampleFifo :=
  xs.foldl SingleChannelSampleFifo.pushNextSampleIntoFifo s

/-- A freshly constructed (as `leftChannelFifo{ Channel::Left }`) and then
prepared `SingleChannelSampleFifo` with block size `bufferSize`. -/
def freshPreparedFifo (bufferSize : Nat) : SingleChannelSampleFifo :=
  (SingleChannelSampleFifo.new Channel.Left).prepare bufferSize

/-! ## Slope and ChainSettings (PluginProcessor.h lines 136-150) -/

/-- `enum Slope { slope12, slope24, slope36, slope48 };`
(PluginProcessor.h lines 136-141). -/
inductive Slope where
  | slope12
  | slope24
  | slope36
  | slope48
deriving DecidableEq

/-- The integral value of the C++ `Slope` enumerator (`slope12` = 0 up to
`slope48` = 3), as used by the arithmetic `2 * (slope + 1)` in
`makeLowCutFilter` / `makeHighCutFilter`. -/
def Slope.index : Slope → Nat
  | .slope12 => 0
  | .slope24 => 1
  | .slope36 => 2
  | .slope48 => 3

/-- Written from the spec's words, for comparison with `Slope.index`:
the position of a slope in the spec's listed order 12, 24, 36, 48
dB/octave (`slope_index`). -/
def slopeIndexSpec : Slope → Nat
  | .slope12 => 0
  | .slope24 => 1
  | .slope36 => 2
  | .slope48 => 3

/-- `static_cast<Slope>` applied to the raw (nonnegative integral) value
of a 4-way choice parameter.  Values 0-3 are the declared enumerators;
the choice parameters can only hold those. -/
def Slope.fromRaw : Nat → Slope
  | 0 => .slope12
  | 1 => .slope24
  | 2 => .slope36
  | _ => .slope48

/-- `struct ChainSettings` (PluginProcessor.h lines 143-148), with the
default member initialisers of the source. -/
structure ChainSettings where
  peakFreq : ℚ := 0
  peakGainInDB : ℚ := 0
  peakQuality : ℚ := 1
  lowCutFrequency : ℚ := 0
  highCutFrequency : ℚ := 0
  lowCutSlope : Slope := .slope12
  highCutSlope : Slope := .slope12
  lowCutByPassed : Bool := false
  peakByPassed : Bool := false
  highCutByPassed : Bool := false
deriving DecidableEq

/-! ## Coefficients and the coefficient swap (PluginProcessor.h lines
164-173, PluginProcessor.cpp lines 212-221)

`Coefficients` in the source is `Filter::CoefficientsPtr`, a
reference-counted pointer to an immutable-by-convention coefficient
object.  To settle whether replacing a stage's coefficients is a handle
swap or an in-place mutation, pointers are modelled explicitly: a handle
is an address and a heap maps addresses to coefficient values. -/

/-- The numeric content of one second-order coefficient object
(normalised transfer-function form: numerator b0 b1 b2, denominator
1 a1 a2). -/
structure CoeffVals where
  b0 : ℚ
  b1 : ℚ
  b2 : ℚ
  a1 : ℚ
  a2 : ℚ
deriving DecidableEq

/-- A heap of coefficient objects: addresses to values.  A
`Coefficients` handle is an address into this heap. -/
def CoeffHeap : Type := Nat → CoeffVals

/-- `KGP_EQAudioProcessor::updateCoefficients(Coefficients& old,
Coefficients& new_) { *old = *new_; }` (PluginProcessor.cpp lines
219-221): both arguments are handles (addresses); the assignment
dereferences both and copies the coefficient values of `*new_` into the
object `*old`, in place.  The handles themselves are not modified, so
the result is the new heap. -/
def updateCoefficients (heap : CoeffHeap) (old new_ : Nat) : CoeffHeap :=
  fun a => if a = old then heap new_ else heap a

/-! ## Filter stages and chains (PluginProcessor.h lines 152-201)

`IIRFilter` embeds `Filter = juce::dsp::IIR::Filter<float>` (PluginProcessor.h line 152; renamed because `Filter` is taken in the ambient library): a coefficient set plus the
two-element internal state of a transposed-direct-form-II second-order
section.  The difference equation itself is JUCE library code, outside
this repository; it is modelled from the spec (§4.2): `process(sample)`
"applies the standard second-order IIR difference equation using the
currently held coefficients, or passes the sample unchanged if
bypassed" — a bypassed stage is a pure pass-through (identity) and its
stored history is untouched.

At this level the net effect of `updateCoefficients` on a stage is that
the held coefficient values become the new ones (the aliasing of the
shared heap object is the subject of the heap model above). -/

/-- One IIR filter stage: held coefficient values and internal history
`s0`, `s1` (cleared on `prepare`). -/
structure IIRFilter where
  coefficients : CoeffVals
  s0 : ℚ := 0
  s1 : ℚ := 0
deriving DecidableEq

/-- The value-level effect of `updateCoefficients(stage.coefficients,
new_)` on one stage: the held coefficient values are replaced, the
internal history is untouched. -/
def IIRFilter.updateCoefficients (f : IIRFilter) (new_ : CoeffVals) : IIRFilter :=
  { f with coefficients := new_ }

/-- Modelled from the spec (§4.2): the standard second-order IIR
difference equation in transposed direct form II.  Returns the stage
with advanced history together with the output sample. -/
def IIRFilter.processSample (f : IIRFilter) (x : ℚ) : IIRFilter × ℚ :=
  let y := f.coefficients.b0 * x + f.s0
  ({ f with
      s0 := f.coefficients.b1 * x - f.coefficients.a1 * y + f.s1
      s1 := f.coefficients.b2 * x - f.coefficients.a2 * y }, y)

/-- `CutFilter = juce::dsp::ProcessorChain<Filter, Filter, Filter, Filter>` (PluginProcessor.h line 154): four stages in fixed order, each
with its own bypass flag held by the processor chain. -/
structure CutFilter where
  stage0 : IIRFilter
  stage1 : IIRFilter
  stage2 : IIRFilter
  stage3 : IIRFilter
  byp0 : Bool
  byp1 : Bool
  byp2 : Bool
  byp3 : Bool
deriving DecidableEq

/-- `chain.get<i>()` for the cut filter. -/
def CutFilter.stage (c : CutFilter) (i : Fin 4) : IIRFilter :=
  match i.val with
  | 0 => c.stage0
  | 1 => c.stage1
  | 2 => c.stage2
  | _ => c.stage3

/-- The bypass flag of stage `i`. -/
def CutFilter.bypassedAt (c : CutFilter) (i : Fin 4) : Bool :=
  match i.val with
  | 0 => c.byp0
  | 1 => c.byp1
  | 2 => c.byp2
  | _ => c.byp3

/-- Writing stage `i` of the chain. -/
def CutFilter.setStage (c : CutFilter) (i : Fin 4) (f : IIRFilter) : CutFilter :=
  match i.val with
  | 0 => { c with stage0 := f }
  | 1 => { c with stage1 := f }
  | 2 => { c with stage2 := f }
  | _ => { c with stage3 := f }

/-- `chain.setBypassed<i>(b)` for the cut filter. -/
def CutFilter.setBypassed (c : CutFilter) (i : Fin 4) (b : Bool) : CutFilter :=
  match i.val with
  | 0 => { c with byp0 := b }
  | 1 => { c with byp1 := b }
  | 2 => { c with byp2 := b }
  | _ => { c with byp3 := b }

/-- The number of non-bypassed stages among the four. -/
def CutFilter.activeStageCount (c : CutFilter) : Nat :=
  (if c.byp0 then 0 else 1) + (if c.byp1 then 0 else 1) +
  (if c.byp2 then 0 else 1) + (if c.byp3 then 0 else 1)

/-- The template `update<Index>(chain, coefficients)` (PluginProcessor.h
lines 169-173): replaces the held coefficients of stage `Index` with
`coefficients[Index]` via `updateCoefficients` and un-bypasses that
stage. -/
def update (i : Fin 4) (chain : CutFilter) (coefficients : Fin 4 → CoeffVals) : CutFilter :=
  (chain.setStage i ((chain.stage i).updateCoefficients (coefficients i))).setBypassed i false

/-- `UpdateCutFilter(chain, coefficients, slope)` (PluginProcessor.h
lines 175-193): first bypasses all four stages, then runs the
switch-with-fallthrough, so `slope48` performs `update<3>`, `update<2>`,
`update<1>`, `update<0>` and `slope12` performs only `update<0>`. -/
def UpdateCutFilter (chain : CutFilter) (coefficients : Fin 4 → CoeffVals)
    (slope : Slope) : CutFilter :=
  let c := ((((chain.setBypassed 0 true).setBypassed 1 true).setBypassed 2 true).setBypassed 3 true)
  match slope with
  | .slope48 => update 0 (update 1 (update 2 (update 3 c coefficients) coefficients) coefficients) coefficients
  | .slope36 => update 0 (update 1 (update 2 c coefficients) coefficients) coefficients
  | .slope24 => update 0 (update 1 c coefficients) coefficients
  | .slope12 => update 0 c coefficients

/-- Running one sample through the four stages in order 0 to 3; bypassed
stages pass the sample through unchanged and keep their history
(modelled from the spec, §4.3: "bypassed stages are identity"). -/
def CutFilter.processSample (c : CutFilter) (x : ℚ) : CutFilter × ℚ :=
  let p0 := if c.byp0 then (c.stage0, x) else c.stage0.processSample x
  let p1 := if c.byp1 then (c.stage1, p0.2) else c.stage1.processSample p0.2
  let p2 := if c.byp2 then (c.stage2, p1.2) else c.stage2.processSample p1.2
  let p3 := if c.byp3 then (c.stage3, p2.2) else c.stage3.processSample p2.2
  ({ c with stage0 := p0.1, stage1 := p1.1, stage2 := p2.1, stage3 := p3.1 }, p3.2)

/-- Running a whole channel block through the cut filter, sample by
sample. -/
def CutFilter.processList (c : CutFilter) (xs : List ℚ) : CutFilter × List ℚ :=
  match xs with
  | [] => (c, [])
  | x :: rest =>
    let p := c.processSample x
    let q := p.1.processList rest
    (q.1, p.2 :: q.2)

/-- A freshly constructed-and-prepared `CutFilter`: each stage holds its
initial coefficient values, history is cleared, no stage bypassed (the
processor chain's bypass flags default to `false`). -/
def freshCut (initC : Fin 4 → CoeffVals) : CutFilter :=
  { stage0 := { coefficients := initC 0 }
    stage1 := { coefficients := initC 1 }
    stage2 := { coefficients := initC 2 }
    stage3 := { coefficients := initC 3 }
    byp0 := false, byp1 := false, byp2 := false, byp3 := false }

/-- `MonoChain = juce::dsp::ProcessorChain<CutFilter, Filter, CutFilter>`
(PluginProcessor.h line 156): low cut, peak, high cut in series.  The
peak position's bypass flag exists in the processor chain but is never
toggled by the code. -/
structure MonoChain where
  lowCut : CutFilter
  peak : IIRFilter
  peakByp : Bool
  highCut : CutFilter
deriving DecidableEq

/-- One sample through the mono chain: low cut, then peak, then high
cut. -/
def MonoChain.processSample (m : MonoChain) (x : ℚ) : MonoChain × ℚ :=
  let pl := m.lowCut.processSample x
  let pp := if m.peakByp then (m.peak, pl.2) else m.peak.processSample pl.2
  let ph := m.highCut.processSample pp.2
  ({ m with lowCut := pl.1, peak := pp.1, highCut := ph.1 }, ph.2)

/-- One channel block through the mono chain (the effect of
`chain.process(context)` on a single-channel block). -/
def MonoChain.processList (m : MonoChain) (xs : List ℚ) : MonoChain × List ℚ :=
  match xs with
  | [] => (m, [])
  | x :: rest =>
    let p := m.processSample x
    let q := p.1.processList rest
    (q.1, p.2 :: q.2)

/-! ## Parameter store and SettingsResolver (PluginProcessor.cpp lines
198-210, 251-288)

The live parameter storage is the framework's
`AudioProcessorValueTreeState`; `createParameterLayout` declares five
continuous parameters and two 4-way choice parameters, and no others.
A store is therefore one independently readable raw value per declared
parameter; `getRawParameterValue(id)->load()` is the corresponding
field read.  The choice parameters hold their selected index 0-3. -/

structure ParamStore where
  lowCutFrequencyParam : ℚ
  highCutFrequencyParam : ℚ
  peakFreqParam : ℚ
  peakGainParam : ℚ
  peakQualityParam : ℚ
  lowCutSlopeParam : Nat
  highCutSlopeParam : Nat
deriving DecidableEq

/-- `getChainSettings(apvts)` (PluginProcessor.cpp lines 198-210):
default-constructs a `ChainSettings` and assigns the seven fields read
from the parameter store.  The three bypass flags are never assigned and
keep their default-member value `false`. -/
def getChainSettings (apvts : ParamStore) : ChainSettings :=
  { lowCutFrequency := apvts.lowCutFrequencyParam
    highCutFrequency := apvts.highCutFrequencyParam
    lowCutSlope := Slope.fromRaw apvts.lowCutSlopeParam
    highCutSlope := Slope.fromRaw apvts.highCutSlopeParam
    peakFreq := apvts.peakFreqParam
    peakGainInDB := apvts.peakGainParam
    peakQuality := apvts.peakQualityParam }

/-! ## CoefficientFactory (PluginProcessor.h lines 195-201,
PluginProcessor.cpp lines 212-241)

The numeric coefficient design lives in the JUCE library
(`juce::dsp::FilterDesign`, `juce::dsp::IIR::Coefficients`,
`juce::Decibels`), outside this repository.  Modelled from the spec
(§4.1): pure, deterministic functions of their arguments, kept abstract
as a parameter record because the claims depend only on which arguments
the repository code passes to them.  A cut design result is indexed by
stage, as `coefficients[Index]` in `update<Index>`. -/

structure CoefficientFactory where
  designIIRHighpassHighOrderButterworthMethod : ℚ → ℚ → Nat → Fin 4 → CoeffVals
  designIIRLowpassHighOrderButterworthMethod : ℚ → ℚ → Nat → Fin 4 → CoeffVals
  makePeakFilter : ℚ → ℚ → ℚ → ℚ → CoeffVals
  decibelsToGain : ℚ → ℚ

/-- `makeLowCutFilter(chainSettings, sampleRate)` (PluginProcessor.h
lines 195-197): requests a high-order Butterworth highpass design of
order `2 * (chainSettings.lowCutSlope + 1)` at the low-cut frequency. -/
def makeLowCutFilter (factory : CoefficientFactory) (chainSettings : ChainSettings)
    (sampleRate : ℚ) : Fin 4 → CoeffVals :=
  factory.designIIRHighpassHighOrderButterworthMethod chainSettings.lowCutFrequency
    sampleRate (2 * (chainSettings.lowCutSlope.index + 1))

/-- `makeHighCutFilter(chainSettings, sampleRate)` (PluginProcessor.h
lines 199-201): the symmetric lowpass design of order
`2 * (chainSettings.highCutSlope + 1)`. -/
def makeHighCutFilter (factory : CoefficientFactory) (chainSettings : ChainSettings)
    (sampleRate : ℚ) : Fin 4 → CoeffVals :=
  factory.designIIRLowpassHighOrderButterworthMethod chainSettings.highCutFrequency
    sampleRate (2 * (chainSettings.highCutSlope.index + 1))

/-! ## The audio processor (PluginProcessor.cpp) -/

/-- The state of `KGP_EQAudioProcessor` relevant to the processing path:
the parameter tree, the two mono chains, the two sample fifos and the
current sample rate (as set up by the host before processing). -/
structure KGP_EQAudioProcessor where
  apvts : ParamStore
  lChain : MonoChain
  rChain : MonoChain
  leftChannelFifo : SingleChannelSampleFifo
  rightChannelFifo : SingleChannelSampleFifo
  sampleRate : ℚ
deriving DecidableEq

/-- `KGP_EQAudioProcessor::updateLowCutFilter(chainSettings)`
(PluginProcessor.cpp lines 223-231): designs the low-cut coefficients
(order `2 * (lowCutSlope + 1)`) and applies them to the low-cut position
of both chains via `UpdateCutFilter`. -/
def KGP_EQAudioProcessor.updateLowCutFilter (factory : CoefficientFactory)
    (st : KGP_EQAudioProcessor) (chainSettings : ChainSettings) : KGP_EQAudioProcessor :=
  let lowCutCoefficients :=
    factory.designIIRHighpassHighOrderButterworthMethod chainSettings.lowCutFrequency
      st.sampleRate (2 * (chainSettings.lowCutSlope.index + 1))
  { st with
      lChain := { st.lChain with
        lowCut := UpdateCutFilter st.lChain.lowCut lowCutCoefficients chainSettings.lowCutSlope }
      rChain := { st.rChain with
        lowCut := UpdateCutFilter st.rChain.lowCut lowCutCoefficients chainSettings.lowCutSlope } }

/-- `KGP_EQAudioProcessor::updatePeakFilter(chainSettings)`
(PluginProcessor.cpp lines 212-217): computes the peak coefficients from
sample rate, centre frequency, quality and linear gain
(`decibelsToGain`), and writes them into the peak stage of both chains
via `updateCoefficients`. -/
def KGP_EQAudioProcessor.updatePeakFilter (factory : CoefficientFactory)
    (st : KGP_EQAudioProcessor) (chainSettings : ChainSettings) : KGP_EQAudioProcessor :=
  let peakCoefficients :=
    factory.makePeakFilter st.sampleRate chainSettings.peakFreq chainSettings.peakQuality
      (factory.decibelsToGain chainSettings.peakGainInDB)
  { st with
      lChain := { st.lChain with peak := st.lChain.peak.updateCoefficients peakCoefficients }
      rChain := { st.rChain with peak := st.rChain.peak.updateCoefficients peakCoefficients } }

/-- `KGP_EQAudioProcessor::updateHighCutFilter(chainSettings)`
(PluginProcessor.cpp lines 233-241). -/
def KGP_EQAudioProcessor.updateHighCutFilter (factory : CoefficientFactory)
    (st : KGP_EQAudioProcessor) (chainSettings : ChainSettings) : KGP_EQAudioProcessor :=
  let highCutCoefficients :=
    factory.designIIRLowpassHighOrderButterworthMethod chainSettings.highCutFrequency
      st.sampleRate (2 * (chainSettings.highCutSlope.index + 1))
  { st with
      lChain := { st.lChain with
        highCut := UpdateCutFilter st.lChain.highCut highCutCoefficients chainSettings.highCutSlope }
      rChain := { st.rChain with
        highCut := UpdateCutFilter st.rChain.highCut highCutCoefficients chainSettings.highCutSlope } }

/-- `KGP_EQAudioProcessor::updateFilters()` (PluginProcessor.cpp lines
243-249): resolves a settings snapshot, then updates low cut, peak and
high cut in that order. -/
def KGP_EQAudioProcessor.updateFilters (factory : CoefficientFactory)
    (st : KGP_EQAudioProcessor) : KGP_EQAudioProcessor :=
  let chainSettings := getChainSettings st.apvts
  ((st.updateLowCutFilter factory chainSettings).updatePeakFilter factory
      chainSettings).updateHighCutFilter factory chainSettings

/-- `juce::AudioChannelSet` as far as `isBusesLayoutSupported` inspects
it: mono, stereo, or anything else. -/
inductive AudioChannelSet where
  | mono
  | stereo
  | other
deriving DecidableEq

/-- The main input and output channel sets of a `BusesLayout`. -/
structure BusesLayout where
  mainInput : AudioChannelSet
  mainOutput : AudioChannelSet
deriving DecidableEq

/-- `KGP_EQAudioProcessor::isBusesLayoutSupported` (PluginProcessor.cpp
lines 118-141), non-MIDI build: rejects a main output other than mono or
stereo, rejects input different from output, accepts the rest. -/
def KGP_EQAudioProcessor.isBusesLayoutSupported (layouts : BusesLayout) : Bool :=
  if layouts.mainOutput ≠ AudioChannelSet.mono ∧ layouts.mainOutput ≠ AudioChannelSet.stereo then
    false
  else if layouts.mainOutput ≠ layouts.mainInput then
    false
  else
    true

/-- The clearing loop at the head of `processBlock` (PluginProcessor.cpp
lines 155-156): output channels beyond the input count are zeroed. -/
def clearExtraChannels (numIn numOut : Nat) (buffer : Buffer) : Buffer :=
  ((List.range (List.length buffer)).zip buffer).map fun p =>
    if numIn ≤ p.1 ∧ p.1 < numOut then List.replicate p.2.length 0 else p.2

/-- `KGP_EQAudioProcessor::processBlock` (PluginProcessor.cpp lines
143-170): clears extra output channels, runs `updateFilters`, then takes
single-channel block 0 for the left chain and single-channel block 1 for
the right chain and processes each in place.  The accesses to channel
blocks 0 and 1 are unconditional; `none` models the out-of-bounds
channel access that occurs when the buffer does not have that channel.
Nothing in the body touches `leftChannelFifo` or `rightChannelFifo`. -/
def KGP_EQAudioProcessor.processBlock (factory : CoefficientFactory)
    (numIn numOut : Nat) (st : KGP_EQAudioProcessor) (buffer : Buffer) :
    Option (KGP_EQAudioProcessor × Buffer) :=
  let buf := clearExtraChannels numIn numOut buffer
  let st1 := st.updateFilters factory
  match buf.get? 0, buf.get? 1 with
  | some ch0, some ch1 =>
      some ({ st1 with
                lChain := (st1.lChain.processList ch0).1
                rChain := (st1.rChain.processList ch1).1 },
            (buf.set 0 (st1.lChain.processList ch0).2).set 1 (st1.rChain.processList ch1).2)
  | _, _ => none

/-! ## Concrete instances used to evaluate the model -/

/-- A concrete coefficient heap: the object at address 0 holds a
unit-passthrough set, every other address holds a distinct set. -/
def c1Heap : CoeffHeap :=
  fun a => if a = 0 then ⟨1, 0, 0, 0, 0⟩ else ⟨2, 0, 0, 0, 0⟩

/-- A concrete coefficient factory instance: every design returns the
unit-passthrough coefficient set.  The claims hold for every factory;
this instance is only used to evaluate the model on closed inputs. -/
def trivFactory : CoefficientFactory :=
  { designIIRHighpassHighOrderButterworthMethod := fun _ _ _ _ => ⟨1, 0, 0, 0, 0⟩
    designIIRLowpassHighOrderButterworthMethod := fun _ _ _ _ => ⟨1, 0, 0, 0, 0⟩
    makePeakFilter := fun _ _ _ _ => ⟨1, 0, 0, 0, 0⟩
    decibelsToGain := fun g => g }

/-- A filter stage holding the unit-passthrough coefficient set with
cleared history. -/
def filterUnit : IIRFilter :=
  { coefficients := ⟨1, 0, 0, 0, 0⟩ }

/-- A cut filter whose four stages all hold `filterUnit`, none
bypassed. -/
def cutUnit : CutFilter :=
  { stage0 := filterUnit, stage1 := filterUnit, stage2 := filterUnit, stage3 := filterUnit
    byp0 := false, byp1 := false, byp2 := false, byp3 := false }

/-- A mono chain built from `cutUnit` and `filterUnit`. -/
def chainUnit : MonoChain :=
  { lowCut := cutUnit, peak := filterUnit, peakByp := false, highCut := cutUnit }

/-- A parameter store holding the declared default values of
`createParameterLayout` (PluginProcessor.cpp lines 251-288). -/
def storeDefault : ParamStore :=
  { lowCutFrequencyParam := 20
    highCutFrequencyParam := 20000
    peakFreqParam := 750
    peakGainParam := 0
    peakQualityParam := 1
    lowCutSlopeParam := 0
    highCutSlopeParam := 0 }

/-- A concrete processor state: default parameters, unit chains, both
sample fifos prepared with block size 1, sample rate 48000. -/
def procDefault : KGP_EQAudioProcessor :=
  { apvts := storeDefault
    lChain := chainUnit
    rChain := chainUnit
    leftChannelFifo := (SingleChannelSampleFifo.new Channel.Left).prepare 1
    rightChannelFifo := (SingleChannelSampleFifo.new Channel.Right).prepare 1
    sampleRate := 48000 }

/-- A concrete two-channel, one-sample buffer. -/
def bufferTwoCh : Buffer := [[1], [2]]

/-- A concrete one-channel (mono) buffer. -/
def bufferMono : Buffer := [[1]]

/-- The concrete result of one `processBlock` call on `procDefault` and
`bufferTwoCh`. -/
def c2Result : KGP_EQAudioProcessor × Buffer :=
  (KGP_EQAudioProcessor.processBlock trivFactory 2 2 procDefault bufferTwoCh).getD
    (procDefault, [])

/-- A block fifo of naturals holding 30 queued elements. -/
def fullFifo : Fifo Nat :=
  { buffers := List.replicate 30 7, readPos := 0, numReady := 30 }

/-- A block fifo of naturals holding no queued elements. -/
def emptyFifo : Fifo Nat :=
  { buffers := List.replicate 30 0, readPos := 0, numReady := 0 }

/-- The scenario of a live slope change: a fresh cut filter is given
slope-12 coefficients, then processes an arbitrary block of samples.
Stage 0 is the only active stage throughout. -/
def slopeChangeRun (initC coeffsA : Fin 4 → CoeffVals) (xs : List ℚ) : CutFilter :=
  (CutFilter.processList (UpdateCutFilter (freshCut initC) coeffsA Slope.slope12) xs).1

/-! ## Shared lemmas -/

/-- `Slope.index` agrees with the spec's `slope_index`. -/
theorem slope_index_eq_spec (s : Slope) : s.index = slopeIndexSpec s := by
  cases s <;> rfl

/-- The clearing loop preserves the channel count of the buffer. -/
theorem clearExtraChannels_length (numIn numOut : Nat) (buffer : Buffer) :
    List.length (clearExtraChannels numIn numOut buffer) = List.length buffer := by
  simp [clearExtraChannels]

/-- `updateFilters` touches only the two chains: the sample fifos are
carried through unchanged. -/
theorem updateFilters_preserves_fifos (factory : CoefficientFactory)
    (st : KGP_EQAudioProcessor) :
    (st.updateFilters factory).leftChannelFifo = st.leftChannelFifo ∧
    (st.updateFilters factory).rightChannelFifo = st.rightChannelFifo :=
  ⟨rfl, rfl⟩

/-- Feeding samples while the staging buffer still has room neither
pushes a block into the block fifo nor changes the staging buffer's
length; the write index advances by one per sample. -/
theorem feedSamples_no_push (xs : List ℚ) (s : SingleChannelSampleFifo)
    (h : s.fifoIndex + xs.length ≤ s.bufferToFill.length) :
    (feedSamples s xs).audioBufferFifo = s.audioBufferFifo ∧
    (feedSamples s xs).fifoIndex = s.fifoIndex + xs.length ∧
    (feedSamples s xs).bufferToFill.length = s.bufferToFill.length := by
  induction xs generalizing s with
  | nil => simp [feedSamples]
  | cons x rest ih =>
    have hlt : s.fifoIndex ≠ s.bufferToFill.length := by
      simp only [List.length_cons] at h
      omega
    have hstep : s.pushNextSampleIntoFifo x =
        { s with bufferToFill := s.bufferToFill.set s.fifoIndex x, fifoIndex := s.fifoIndex + 1 } := by
      simp [SingleChannelSampleFifo.pushNextSampleIntoFifo, hlt]
    have hfeed : feedSamples s (x :: rest) = feedSamples (s.pushNextSampleIntoFifo x) rest := rfl
    have hnext : (s.pushNextSampleIntoFifo x).fifoIndex + rest.length ≤
        (s.pushNextSampleIntoFifo x).bufferToFill.length := by
      rw [hstep]
      simp only [List.length_set, List.length_cons] at h ⊢
      omega
    obtain ⟨h1, h2, h3⟩ := ih (s.pushNextSampleIntoFifo x) hnext
    refine ⟨?_, ?_, ?_⟩
    · rw [hfeed, h1, hstep]
    · rw [hfeed, h2, hstep]
      simp only [List.length_cons]
      omega
    · rw [hfeed, h3, hstep]
      simp [List.length_set]

/-- While stages 1-3 are bypassed, running samples through the cut
filter leaves them (and the bypass flags) untouched. -/
theorem processList_bypassed_stages (xs : List ℚ) (c : CutFilter)
    (h1 : c.byp1 = true) (h2 : c.byp2 = true) (h3 : c.byp3 = true) :
    (c.processList xs).1.stage1 = c.stage1 ∧
    (c.processList xs).1.stage2 = c.stage2 ∧
    (c.processList xs).1.stage3 = c.stage3 := by
  induction xs generalizing c with
  | nil => exact ⟨rfl, rfl, rfl⟩
  | cons x rest ih =>
    have hstep1 : (c.processSample x).1.stage1 = c.stage1 := by
      simp [CutFilter.processSample, h1]
    have hstep2 : (c.processSample x).1.stage2 = c.stage2 := by
      simp [CutFilter.processSample, h2]
    have hstep3 : (c.processSample x).1.stage3 = c.stage3 := by
      simp [CutFilter.processSample, h3]
    have hb1 : (c.processSample x).1.byp1 = true := h1
    have hb2 : (c.processSample x).1.byp2 = true := h2
    have hb3 : (c.processSample x).1.byp3 = true := h3
    have hlist : (c.processList (x :: rest)).1 = ((c.processSample x).1.processList rest).1 := by
      simp [CutFilter.processList]
    obtain ⟨e1, e2, e3⟩ := ih _ hb1 hb2 hb3
    rw [hlist, e1, e2, e3, hstep1, hstep2, hstep3]
    exact ⟨rfl, rfl, rfl⟩

/-! ## Claim theorems -/

/-- Claim C1, counterexample: `updateCoefficients` is not a handle
replacement that leaves the previously referenced object unchanged.  On
a concrete heap, after `updateCoefficients(old at address 0, new at
address 1)` the object previously referenced through address 0 no longer
holds its old values: `*old = *new_` mutated it in place. -/
theorem updateCoefficients_not_swap_cex :
    ¬ updateCoefficients c1Heap 0 1 0 = c1Heap 0 := by decide

/-- Claim C1, amended: `updateCoefficients(old, new_)` copies the
coefficient values of `*new_` into the object `*old` in place: the
stage's handle still refers to the same address, that object now holds
the new values, and objects at every other address are untouched.  A
reader holding the old handle therefore observes the mutation, not the
complete old set. -/
theorem updateCoefficients_in_place_copy (heap : CoeffHeap) (old new_ a : Nat) :
    updateCoefficients heap old new_ old = heap new_ ∧
    (a ≠ old → updateCoefficients heap old new_ a = heap a) := by
  refine ⟨?_, fun ha => ?_⟩
  · simp [updateCoefficients]
  · simp [updateCoefficients, ha]

/-- Witness for `updateCoefficients_in_place_copy` at a concrete heap
and addresses. -/
theorem updateCoefficients_in_place_copy_witness :
    updateCoefficients c1Heap 0 1 0 = c1Heap 1 ∧
    updateCoefficients c1Heap 0 1 2 = c1Heap 2 :=
  ⟨(updateCoefficients_in_place_copy c1Heap 0 1 2).1,
   (updateCoefficients_in_place_copy c1Heap 0 1 2).2 (by decide)⟩

/-- Claim C5: the block fifo has fixed capacity 30; a push onto a fifo
that already holds 30 unconsumed blocks reports failure, drops the new
block, leaves the buffers, positions and queued contents unchanged, and
a subsequent pull behaves exactly as it would have before the failed
push. -/
theorem Fifo_push_full_fails {T : Type} (f : Fifo T) (t d : T)
    (h : f.getNumAvailableForReading = 30) :
    (f.push t).2 = false ∧
    (f.push t).1 = f ∧
    (f.push t).1.contents d = f.contents d ∧
    (f.push t).1.pull d = f.pull d := by
  have hn : f.numReady = 30 := h
  have hp : f.push t = (f, false) := by
    simp [Fifo.push, hn, Fifo.Capacity]
  rw [hp]
  exact ⟨rfl, rfl, rfl, rfl⟩

/-- Witness for `Fifo_push_full_fails` on a concrete full fifo. -/
theorem Fifo_push_full_fails_witness :
    (fullFifo.push 9).2 = false ∧
    (fullFifo.push 9).1 = fullFifo ∧
    (fullFifo.push 9).1.contents 0 = fullFifo.contents 0 ∧
    (fullFifo.push 9).1.pull 0 = fullFifo.pull 0 :=
  Fifo_push_full_fails fullFifo 9 0 rfl

/-- Claim C10: pulling from an empty block fifo is an observational
no-op: it returns `false`, leaves the caller's destination argument
unmodified and leaves the fifo's contents and positions unchanged. -/
theorem Fifo_pull_empty_noop {T : Type} (f : Fifo T) (t : T)
    (h : f.getNumAvailableForReading = 0) :
    f.pull t = (f, t, false) := by
  have hn : f.numReady = 0 := h
  simp [Fifo.pull, hn]

/-- Witness for `Fifo_pull_empty_noop` on a concrete empty fifo. -/
theorem Fifo_pull_empty_noop_witness :
    emptyFifo.pull 5 = (emptyFifo, 5, false) :=
  Fifo_pull_empty_noop emptyFifo 5 rfl

/-- Claim C7: for every `ChainSettings`, the low-cut design request is a
Butterworth highpass of order `2 * (slope_index + 1)` and the high-cut
request the symmetric lowpass of the same order formula, giving order 2
for `slope12` up to order 8 for `slope48`. -/
theorem cut_design_order_matches_spec (factory : CoefficientFactory)
    (cs : ChainSettings) (sampleRate : ℚ) :
    makeLowCutFilter factory cs sampleRate =
      factory.designIIRHighpassHighOrderButterworthMethod cs.lowCutFrequency sampleRate
        (2 * (slopeIndexSpec cs.lowCutSlope + 1)) ∧
    makeHighCutFilter factory cs sampleRate =
      factory.designIIRLowpassHighOrderButterworthMethod cs.highCutFrequency sampleRate
        (2 * (slopeIndexSpec cs.highCutSlope + 1)) ∧
    2 * (slopeIndexSpec Slope.slope12 + 1) = 2 ∧
    2 * (slopeIndexSpec Slope.slope24 + 1) = 4 ∧
    2 * (slopeIndexSpec Slope.slope36 + 1) = 6 ∧
    2 * (slopeIndexSpec Slope.slope48 + 1) = 8 := by
  refine ⟨?_, ?_, rfl, rfl, rfl, rfl⟩
  · simp [makeLowCutFilter, slope_index_eq_spec]
  · simp [makeHighCutFilter, slope_index_eq_spec]

/-- Claim C9: the settings resolver never reads a bypass parameter, so
every resolved `ChainSettings` has all three stage bypass flags equal to
`false`, whatever the parameter store holds. -/
theorem getChainSettings_bypass_flags_false (apvts : ParamStore) :
    (getChainSettings apvts).lowCutByPassed = false ∧
    (getChainSettings apvts).peakByPassed = false ∧
    (getChainSettings apvts).highCutByPassed = false :=
  ⟨rfl, rfl, rfl⟩

/-- Claim C3: after `UpdateCutFilter(chain, coefficients, s)` exactly
`s_index + 1` of the four stages are non-bypassed, namely stages 0
through `s_index`: the switch-with-fallthrough activates all stages
below the selected slope in the same pass, so `slope48` activates stages
3, 2, 1, 0 and `slope12` activates only stage 0. -/
theorem UpdateCutFilter_active_stages (chain : CutFilter)
    (coefficients : Fin 4 → CoeffVals) (s : Slope) :
    (∀ i : Fin 4,
      ((UpdateCutFilter chain coefficients s).bypassedAt i = false ↔ i.val ≤ s.index)) ∧
    (UpdateCutFilter chain coefficients s).activeStageCount = s.index + 1 := by
  cases s <;>
    exact ⟨fun i => by
      fin_cases i <;>
        simp [UpdateCutFilter, update, CutFilter.setBypassed, CutFilter.setStage,
          CutFilter.bypassedAt, Slope.index], rfl⟩

/-- Claim C6: across a slope change from 12 to 24 dB/oct applied via
`UpdateCutFilter`, the internal history of the already-active stage 0 is
preserved (not reset), and the newly-activated stage 1 — like the still
bypassed stages 2 and 3 — carries a cleared (zero) internal state, since
a stage that has been bypassed since preparation never accumulated any
history and the coefficient update never touches stage state. -/
theorem slope_change_keeps_history_and_clears_new_stages
    (initC coeffsA coeffsB : Fin 4 → CoeffVals) (xs : List ℚ) :
    (UpdateCutFilter (slopeChangeRun initC coeffsA xs) coeffsB Slope.slope24).stage0.s0 =
        (slopeChangeRun initC coeffsA xs).stage0.s0 ∧
    (UpdateCutFilter (slopeChangeRun initC coeffsA xs) coeffsB Slope.slope24).stage0.s1 =
        (slopeChangeRun initC coeffsA xs).stage0.s1 ∧
    (UpdateCutFilter (slopeChangeRun initC coeffsA xs) coeffsB Slope.slope24).stage1.s0 = 0 ∧
    (UpdateCutFilter (slopeChangeRun initC coeffsA xs) coeffsB Slope.slope24).stage1.s1 = 0 ∧
    (UpdateCutFilter (slopeChangeRun initC coeffsA xs) coeffsB Slope.slope24).stage2.s0 = 0 ∧
    (UpdateCutFilter (slopeChangeRun initC coeffsA xs) coeffsB Slope.slope24).stage2.s1 = 0 ∧
    (UpdateCutFilter (slopeChangeRun initC coeffsA xs) coeffsB Slope.slope24).stage3.s0 = 0 ∧
    (UpdateCutFilter (slopeChangeRun initC coeffsA xs) coeffsB Slope.slope24).stage3.s1 = 0 := by
  obtain ⟨e1, e2, e3⟩ :=
    processList_bypassed_stages xs (UpdateCutFilter (freshCut initC) coeffsA Slope.slope12)
      rfl rfl rfl
  have hrun : slopeChangeRun initC coeffsA xs =
      (CutFilter.processList (UpdateCutFilter (freshCut initC) coeffsA Slope.slope12) xs).1 := rfl
  have u0s0 : (UpdateCutFilter (slopeChangeRun initC coeffsA xs) coeffsB Slope.slope24).stage0.s0 =
      (slopeChangeRun initC coeffsA xs).stage0.s0 := rfl
  have u0s1 : (UpdateCutFilter (slopeChangeRun initC coeffsA xs) coeffsB Slope.slope24).stage0.s1 =
      (slopeChangeRun initC coeffsA xs).stage0.s1 := rfl
  have u1 : (UpdateCutFilter (slopeChangeRun initC coeffsA xs) coeffsB Slope.slope24).stage1 =
      (slopeChangeRun initC coeffsA xs).stage1.updateCoefficients (coeffsB 1) := rfl
  have u2 : (UpdateCutFilter (slopeChangeRun initC coeffsA xs) coeffsB Slope.slope24).stage2 =
      (slopeChangeRun initC coeffsA xs).stage2 := rfl
  have u3 : (UpdateCutFilter (slopeChangeRun initC coeffsA xs) coeffsB Slope.slope24).stage3 =
      (slopeChangeRun initC coeffsA xs).stage3 := rfl
  refine ⟨u0s0, u0s1, ?_, ?_, ?_, ?_, ?_, ?_⟩
  · rw [u1, hrun, e1]; rfl
  · rw [u1, hrun, e1]; rfl
  · rw [u2, hrun, e2]; rfl
  · rw [u2, hrun, e2]; rfl
  · rw [u3, hrun, e3]; rfl
  · rw [u3, hrun, e3]; rfl

/-- Claim C2, counterexample: on a concrete two-channel one-sample
buffer, the left sample fifo coming out of `processBlock` equals the
fifo that went in, whereas feeding the processed block into it (as the
claim requires) would have changed it — no sample is ever pushed into a
`SingleChannelSampleFifo` by the processing cycle. -/
theorem processBlock_never_feeds_fifo_cex :
    ¬ ((KGP_EQAudioProcessor.processBlock trivFactory 2 2 procDefault bufferTwoCh).map
          fun p => p.1.leftChannelFifo) =
      ((KGP_EQAudioProcessor.processBlock trivFactory 2 2 procDefault bufferTwoCh).map
          fun p => procDefault.leftChannelFifo.update p.2) := by decide

/-- Claim C2, amended: `processBlock` runs the per-channel chains but
never pushes any sample into either `SingleChannelSampleFifo`; both fifo
members are carried through every successful block cycle unchanged. -/
theorem processBlock_preserves_sample_fifos (factory : CoefficientFactory)
    (numIn numOut : Nat) (st : KGP_EQAudioProcessor) (buffer : Buffer)
    (p : KGP_EQAudioProcessor × Buffer)
    (h : KGP_EQAudioProcessor.processBlock factory numIn numOut st buffer = some p) :
    p.1.leftChannelFifo = st.leftChannelFifo ∧
    p.1.rightChannelFifo = st.rightChannelFifo := by
  simp only [KGP_EQAudioProcessor.processBlock] at h
  cases h0 : (clearExtraChannels numIn numOut buffer).get? 0 with
  | none =>
    rw [h0] at h
    cases h1 : (clearExtraChannels numIn numOut buffer).get? 1 with
    | none => rw [h1] at h; exact absurd h (by simp)
    | some ch1 => rw [h1] at h; exact absurd h (by simp)
  | some ch0 =>
    rw [h0] at h
    cases h1 : (clearExtraChannels numIn numOut buffer).get? 1 with
    | none => rw [h1] at h; exact absurd h (by simp)
    | some ch1 =>
      rw [h1] at h
      have hp := Option.some.inj h
      rw [← hp]
      exact (updateFilters_preserves_fifos factory st)

/-- Witness for `processBlock_preserves_sample_fifos` on a concrete
state and buffer. -/
theorem processBlock_preserves_sample_fifos_witness :
    KGP_EQAudioProcessor.processBlock trivFactory 2 2 procDefault bufferTwoCh = some c2Result ∧
    c2Result.1.leftChannelFifo = procDefault.leftChannelFifo ∧
    c2Result.1.rightChannelFifo = procDefault.rightChannelFifo := by
  have h : KGP_EQAudioProcessor.processBlock trivFactory 2 2 procDefault bufferTwoCh =
      some c2Result := by rfl
  exact ⟨h,
    (processBlock_preserves_sample_fifos trivFactory 2 2 procDefault bufferTwoCh c2Result h).1,
    (processBlock_preserves_sample_fifos trivFactory 2 2 procDefault bufferTwoCh c2Result h).2⟩

/-- Claim C8: `processBlock` takes the single-channel block at index 1
unconditionally, while the layout check also accepts mono; so the mono
layout is supported, a one-channel buffer makes the processing path hit
an out-of-bounds channel access (modelled as `none`), and a buffer with
at least two channels is processed successfully. -/
theorem processBlock_requires_two_channels (factory : CoefficientFactory)
    (numIn numOut : Nat) (st : KGP_EQAudioProcessor) (buffer : Buffer) :
    KGP_EQAudioProcessor.isBusesLayoutSupported
      { mainInput := AudioChannelSet.mono, mainOutput := AudioChannelSet.mono } = true ∧
    (List.length buffer = 1 →
      KGP_EQAudioProcessor.processBlock factory numIn numOut st buffer = none) ∧
    (2 ≤ List.length buffer →
      (KGP_EQAudioProcessor.processBlock factory numIn numOut st buffer).isSome = true) := by
  refine ⟨rfl, fun hlen => ?_, fun hlen => ?_⟩
  · have h1 : (clearExtraChannels numIn numOut buffer).get? 1 = none := by
      apply List.get?_eq_none.mpr
      rw [clearExtraChannels_length, hlen]
    simp only [KGP_EQAudioProcessor.processBlock]
    cases h0 : (clearExtraChannels numIn numOut buffer).get? 0 <;> rw [h1]
  · have hl : 2 ≤ (clearExtraChannels numIn numOut buffer).length := by
      rw [clearExtraChannels_length]; exact hlen
    have h0 : (clearExtraChannels numIn numOut buffer).get? 0 =
        some ((clearExtraChannels numIn numOut buffer).get ⟨0, by omega⟩) :=
      List.get?_eq_get (by omega)
    have h1 : (clearExtraChannels numIn numOut buffer).get? 1 =
        some ((clearExtraChannels numIn numOut buffer).get ⟨1, by omega⟩) :=
      List.get?_eq_get (by omega)
    simp only [KGP_EQAudioProcessor.processBlock]
    rw [h0, h1]
    rfl

/-- Witness for `processBlock_requires_two_channels`: a mono buffer is
rejected, a stereo buffer is processed. -/
theorem processBlock_requires_two_channels_witness :
    KGP_EQAudioProcessor.processBlock trivFactory 2 2 procDefault bufferMono = none ∧
    (KGP_EQAudioProcessor.processBlock trivFactory 2 2 procDefault bufferTwoCh).isSome = true :=
  ⟨(processBlock_requires_two_channels trivFactory 2 2 procDefault bufferMono).2.1 rfl,
   (processBlock_requires_two_channels trivFactory 2 2 procDefault bufferTwoCh).2.2 (by decide)⟩

/-- Claim C4, counterexample: feeding exactly `blockSize` samples
(here 2) into a freshly prepared `SingleChannelSampleFifo` leaves zero
complete blocks available, not one — the full staging buffer is only
pushed at the start of the next sample push. -/
theorem fifo_not_available_at_blockSize_cex :
    ¬ (feedSamples (freshPreparedFifo 2) [1, 2]).getNumCompleteBuffersAvailable = 1 := by
  decide

/-- Claim C4, amended: after feeding `N` samples into an empty, freshly
prepared `SingleChannelSampleFifo` with block size `blockSize`, no
complete block is available for pull while `N ≤ blockSize`; the first
complete block becomes available when sample `blockSize + 1` is pushed
(the push of the full staging buffer happens at the start of the next
call). -/
theorem feedSamples_block_availability (blockSize : Nat) (xs : List ℚ) :
    (xs.length ≤ blockSize →
      (feedSamples (freshPreparedFifo blockSize) xs).getNumCompleteBuffersAvailable = 0) ∧
    (xs.length = blockSize + 1 →
      (feedSamples (freshPreparedFifo blockSize) xs).getNumCompleteBuffersAvailable = 1) := by
  have hidx : (freshPreparedFifo blockSize).fifoIndex = 0 := rfl
  have hbuf : (freshPreparedFifo blockSize).bufferToFill.length = blockSize := by
    simp [freshPreparedFifo, SingleChannelSampleFifo.prepare, SingleChannelSampleFifo.new]
  constructor
  · intro hle
    obtain ⟨h1, _, _⟩ := feedSamples_no_push xs (freshPreparedFifo blockSize)
      (by rw [hidx, hbuf]; omega)
    simp only [SingleChannelSampleFifo.getNumCompleteBuffersAvailable,
      Fifo.getNumAvailableForReading, h1]
    rfl
  · intro hlen
    have hdroplen : (xs.drop blockSize).length = 1 := by
      simp [List.length_drop, hlen]
    obtain ⟨z, hz⟩ := List.length_eq_one.mp hdroplen
    have htakelen : (xs.take blockSize).length = blockSize := by
      simp [List.length_take, hlen]
    have hsplit : feedSamples (freshPreparedFifo blockSize) xs =
        feedSamples (feedSamples (freshPreparedFifo blockSize) (xs.take blockSize))
          (xs.drop blockSize) := by
      simp only [feedSamples]
      rw [← List.foldl_append, List.take_append_drop]
    obtain ⟨h1, h2, h3⟩ := feedSamples_no_push (xs.take blockSize) (freshPreparedFifo blockSize)
      (by rw [hidx, hbuf, htakelen]; omega)
    rw [hsplit, hz]
    have hcond : (feedSamples (freshPreparedFifo blockSize) (xs.take blockSize)).fifoIndex =
        (feedSamples (freshPreparedFifo blockSize) (xs.take blockSize)).bufferToFill.length := by
      rw [h2, h3, hidx, hbuf, htakelen]
      omega
    show ((feedSamples (freshPreparedFifo blockSize) (xs.take blockSize)).pushNextSampleIntoFifo
        z).getNumCompleteBuffersAvailable = 1
    simp only [SingleChannelSampleFifo.pushNextSampleIntoFifo, hcond, if_pos,
      SingleChannelSampleFifo.getNumCompleteBuffersAvailable, Fifo.getNumAvailableForReading]
    rw [h1]
    rfl

/-- Witness for `feedSamples_block_availability` at block size 2: two
samples leave nothing available, a third makes exactly one block
available. -/
theorem feedSamples_block_availability_witness :
    (feedSamples (freshPreparedFifo 2) [1, 2]).getNumCompleteBuffersAvailable = 0 ∧
    (feedSamples (freshPreparedFifo 2) [1, 2, 3]).getNumCompleteBuffersAvailable = 1 :=
  ⟨(feedSamples_block_availability 2 [1, 2]).1 (by decide),
   (feedSamples_block_availability 2 [1, 2, 3]).2 (by decide)⟩
